import Mathlib

/-!
Verification development for the sudokuist static file server
(`src/server.py`): a shallow embedding of the server's data model and
observable behavior, with theorems checking the specification's claims.

The repository's own code is the `end_headers` override (lines 15-18),
the startup MIME registration (line 12), and the `__main__` block
(lines 20-31).  The generic file-serving behavior it inherits from the
standard library handler is not part of the repository's sources, so
those parts are modelled from the specification and marked as such.
-/

namespace Sudokuist

/-- Content-Type Table: maps a file extension (such as ".wasm") to a MIME
type string, `none` when the extension is unknown. -/
def MimeTable : Type := String → Option String

/-- RegisterMimeType, the effect of `mimetypes.add_type(mimeType, ext)`:
insertion/override of one extension mapping into the Content-Type Table.
Modelled from the spec: "idempotent insertion/override into the
Content-Type Table". -/
def addType (t : MimeTable) (mimeType ext : String) : MimeTable :=
  fun e => if e = ext then some mimeType else t e

/-- The Content-Type Table after the single startup registration at
src/server.py line 12: `mimetypes.add_type('application/wasm', '.wasm')`,
applied on top of an arbitrary platform default table. -/
def startupTable (platformDefault : MimeTable) : MimeTable :=
  addType platformDefault "application/wasm" ".wasm"

/-- Scan a reversed character list for the extension: collect characters
up to and including the first dot of the reversed list (the last dot of
the original), `none` when the name has no dot. -/
def extRevAux : List Char → Option (List Char)
  | [] => none
  | c :: cs => if c = '.' then some [c] else (extRevAux cs).map (fun e => c :: e)

/-- Extension of a file name: the suffix starting at the last dot,
or "" when there is no dot. -/
def pathExt (p : String) : String :=
  match extRevAux p.data.reverse with
  | none => ""
  | some e => String.mk e.reverse

/-- MIME type of a file name: extension lookup in the Content-Type Table,
falling back to the generic binary type when unknown.  Modelled from the
spec: "determine its MIME type by extension lookup in the Content-Type
Table (falling back to a generic binary type if unknown)". -/
def guessType (t : MimeTable) (name : String) : String :=
  (t (pathExt name)).getD "application/octet-stream"

/-- One segment of a request path: a plain name, a parent-directory
segment ("..") or a current-directory segment ("."). -/
inductive Seg where
  | name (s : String)
  | up
  | cur
deriving DecidableEq

/-- Resolution of path segments against the root directory, carrying the
stack of directory names entered so far (innermost first); `none` when a
parent-directory segment would climb above the root, i.e. the naive
resolution lands outside the root. -/
def resolveAux : List Seg → List String → Option (List String)
  | [], acc => some acc.reverse
  | Seg.cur :: rest, acc => resolveAux rest acc
  | Seg.up :: rest, acc =>
    match acc with
    | [] => none
    | _ :: accTail => resolveAux rest accTail
  | Seg.name s :: rest, acc => resolveAux rest (s :: acc)

/-- Resolve a request path against the root directory.  `some ps` is the
root-relative resolved path; `none` means the resolution escapes the
root directory. -/
def resolve (segs : List Seg) : Option (List String) :=
  resolveAux segs []

/-- What a resolved path names on disk under the root directory. -/
inductive FileKind where
  | file (contents : List Nat)
  | directory (index : Option (List Nat)) (entries : List String)
  | missing

/-- Filesystem under the root directory: each root-relative resolved
path names a regular file, a directory, or nothing. -/
def Fs : Type := List String → FileKind

/-- An inbound HTTP request: method and path segments. -/
structure Request where
  method : String
  segs : List Seg

/-- A response body: streamed file bytes, a short human-readable error
text, or a generated directory listing. -/
inductive Body where
  | fileBytes (bs : List Nat)
  | errorText (msg : String)
  | listing (entries : List String)
deriving DecidableEq

/-- An HTTP response: status code, finalized headers, body. -/
structure Response where
  status : Nat
  headers : List (String × String)
  body : Body

/-- The first header injected by the override at src/server.py line 16. -/
def coepHeader : String × String :=
  ("Cross-Origin-Embedder-Policy", "require-corp")

/-- The second header injected by the override at src/server.py line 17. -/
def coopHeader : String × String :=
  ("Cross-Origin-Opener-Policy", "same-origin")

/-- Header finalization as performed by the overridden `end_headers`
(src/server.py lines 15-18): the two cross-origin headers are appended
to whatever headers the response has buffered, in source order, and then
the base finalization emits them all. -/
def finalizeHeaders (hs : List (String × String)) : List (String × String) :=
  hs ++ [coepHeader, coopHeader]

/-- Build a response whose headers pass through the single
header-finalization step. -/
def mkResponse (status : Nat) (hs : List (String × String)) (b : Body) : Response :=
  { status := status, headers := finalizeHeaders hs, body := b }

/-- HandleRequest.  Modelled from the spec for everything the repository
inherits from the base handler (method dispatch, traversal rejection,
404, file serving); the header finalization on every exit path is the
repository's own `end_headers` override. -/
def handleRequest (t : MimeTable) (fs : Fs) (req : Request) : Response :=
  if req.method = "GET" ∨ req.method = "HEAD" then
    match resolve req.segs with
    | none => mkResponse 403 [] (Body.errorText "Forbidden")
    | some ps =>
      match fs ps with
      | FileKind.file bs =>
        mkResponse 200
          [("Content-Type", guessType t (ps.getLastD "")),
           ("Content-Length", toString bs.length)]
          (Body.fileBytes bs)
      | FileKind.directory (some bs) _ =>
        mkResponse 200
          [("Content-Type", guessType t "index.html"),
           ("Content-Length", toString bs.length)]
          (Body.fileBytes bs)
      | FileKind.directory none entries =>
        mkResponse 200 [("Content-Type", "text/html")] (Body.listing entries)
      | FileKind.missing =>
        mkResponse 404 [("Content-Type", "text/html")] (Body.errorText "File not found")
  else
    mkResponse 405 [] (Body.errorText "Method Not Allowed")

/-- The server loop: requests are handled one at a time, each one
independently; a per-request error leaves the loop running for the
remaining requests. -/
def serveAll (t : MimeTable) (fs : Fs) (reqs : List Request) : List Response :=
  reqs.map (handleRequest t fs)

/-- Startup environment observed by the `__main__` block: whether the
root directory `dist` exists and whether port 3000 is free. -/
structure Env where
  distExists : Bool
  portFree : Bool

/-- Observable process events of the `__main__` block. -/
inductive Ev where
  | chdir (dir : String)
  | bind (host : String) (port : Nat)
  | printLn (s : String)
  | serve
  | closeSocket
deriving DecidableEq

/-- Result of one terminating run of the process: its event trace and
exit status. -/
structure ProcResult where
  trace : List Ev
  exitCode : Nat

/-- Whether an event is a diagnostic printed on the process's error
output (an uncaught-exception traceback). -/
def isDiagnostic : Ev → Bool
  | Ev.printLn s => s.data.take 9 = "Traceback".data
  | _ => false

/-- The `__main__` block, src/server.py lines 20-31, as a run-to-completion
model of a terminating execution.  `os.chdir('dist')` raises when `dist`
is missing and binding raises when the port is taken; an uncaught
exception prints a traceback diagnostic and exits with status 1.  On a
successful start the only way `serve_forever` returns is a keyboard
interrupt, which the handler turns into a shutdown message; the `with`
block closes the listening socket and the process exits with status 0. -/
def runMain (env : Env) : ProcResult :=
  if env.distExists = false then
    { trace := [Ev.printLn "Traceback: FileNotFoundError: dist"]
      exitCode := 1 }
  else if env.portFree = false then
    { trace := [Ev.chdir "dist",
        Ev.printLn "Traceback: OSError: Address already in use"]
      exitCode := 1 }
  else
    { trace := [Ev.chdir "dist",
        Ev.bind "" 3000,
        Ev.printLn "Serving Sudokuist at http://localhost:3000",
        Ev.printLn "Test page at http://localhost:3000/test.html",
        Ev.printLn "Press Ctrl+C to stop",
        Ev.serve,
        Ev.printLn "Server stopped",
        Ev.closeSocket]
      exitCode := 0 }

/-- Per-connection handler state: the status line already chosen, the
buffered headers not yet sent, the lines already written to the wire,
and the body bytes to be sent after the headers. -/
structure HandlerState where
  statusLine : Option (Nat × String)
  headerBuffer : List (String × String)
  wire : List String
  body : List Nat
deriving DecidableEq

/-- Render one header as a wire line. -/
def renderHeader (h : String × String) : String :=
  h.1 ++ ": " ++ h.2

/-- The base handler's `send_header`: append one header to the buffer.
Modelled from the spec: buffered headers are emitted at finalization. -/
def sendHeader (st : HandlerState) (k v : String) : HandlerState :=
  { st with headerBuffer := st.headerBuffer ++ [(k, v)] }

/-- The base handler's `end_headers`: flush the buffered headers to the
wire followed by the blank header terminator.  Modelled from the spec:
the generic "finalize headers" step of the base handler. -/
def baseEndHeaders (st : HandlerState) : HandlerState :=
  { st with
    headerBuffer := []
    wire := st.wire ++ st.headerBuffer.map renderHeader ++ [""] }

/-- The overridden `end_headers` of CustomHTTPRequestHandler,
src/server.py lines 15-18: send the two cross-origin headers, then call
the base finalization. -/
def customEndHeaders (st : HandlerState) : HandlerState :=
  baseEndHeaders
    (sendHeader
      (sendHeader st "Cross-Origin-Embedder-Policy" "require-corp")
      "Cross-Origin-Opener-Policy" "same-origin")

end Sudokuist

namespace Sudokuist

/-- Whether a response body is streamed file contents. -/
def isFileBody : Body → Bool
  | Body.fileBytes _ => true
  | _ => false

/-- An extension table with no entries, serving as a demo platform
default. -/
def emptyTable : MimeTable := fun _ => none

/-- A demo filesystem where every resolvable path is a regular file. -/
def allFilesFs : Fs := fun _ => FileKind.file [0]

/-- A demo filesystem with no entries at all. -/
def emptyFs : Fs := fun _ => FileKind.missing

/-- A demo GET request for a path that exists nowhere. -/
def missingReq : Request := { method := "GET", segs := [Seg.name "does-not-exist.xyz"] }

/-- A demo follow-up GET request. -/
def nextReq : Request := { method := "GET", segs := [Seg.name "index.html"] }

/-- Every response built through the single finalization step carries the
two cross-origin headers. -/
theorem mkResponse_cross_origin (s : Nat) (hs : List (String × String)) (b : Body) :
    ("Cross-Origin-Embedder-Policy", "require-corp") ∈ (mkResponse s hs b).headers ∧
    ("Cross-Origin-Opener-Policy", "same-origin") ∈ (mkResponse s hs b).headers := by
  constructor <;> simp [mkResponse, finalizeHeaders, coepHeader, coopHeader]

/-- Scanning a reversed name that starts with the reversed ".wasm"
extension yields exactly that extension. -/
theorem extRevAux_wasm (r : List Char) :
    extRevAux ('m' :: 's' :: 'a' :: 'w' :: '.' :: r) = some ['m', 's', 'a', 'w', '.'] := by
  simp [extRevAux]

/-- A name ending in ".wasm" has extension ".wasm". -/
theorem pathExt_of_wasm_suffix (p : String) (h : List.IsSuffix ".wasm".data p.data) :
    pathExt p = ".wasm" := by
  obtain ⟨s, hs⟩ := h
  have hrev : p.data.reverse = 'm' :: 's' :: 'a' :: 'w' :: '.' :: s.reverse := by
    rw [← hs, List.reverse_append]
    rfl
  unfold pathExt
  rw [hrev, extRevAux_wasm]
  rfl

/-- After the startup registration, extension lookup for any name ending
in ".wasm" yields "application/wasm", whatever the platform default. -/
theorem guessType_wasm (d : MimeTable) (name : String)
    (h : List.IsSuffix ".wasm".data name.data) :
    guessType (startupTable d) name = "application/wasm" := by
  unfold guessType
  rw [pathExt_of_wasm_suffix name h]
  simp [startupTable, addType]

end Sudokuist

namespace Sudokuist

/-- Claim C1: for every response produced by HandleRequest, regardless of
status code (200, 404, or any error status), the finalized header set
contains both `Cross-Origin-Embedder-Policy: require-corp` and
`Cross-Origin-Opener-Policy: same-origin` with exactly those values,
because injection happens at the single header-finalization step on
every exit path. -/
theorem handleRequest_always_cross_origin (t : MimeTable) (fs : Fs) (req : Request) :
    ("Cross-Origin-Embedder-Policy", "require-corp") ∈ (handleRequest t fs req).headers ∧
    ("Cross-Origin-Opener-Policy", "same-origin") ∈ (handleRequest t fs req).headers := by
  unfold handleRequest
  split
  · split
    · exact mkResponse_cross_origin _ _ _
    · split
      · exact mkResponse_cross_origin _ _ _
      · exact mkResponse_cross_origin _ _ _
      · exact mkResponse_cross_origin _ _ _
      · exact mkResponse_cross_origin _ _ _
  · exact mkResponse_cross_origin _ _ _

/-- Claim C2: for every request whose path ends in `.wasm` and resolves
to a regular file, the response's Content-Type header is
`application/wasm`, because the Content-Type Table is updated once at
startup with the mapping, overriding any platform default. -/
theorem handleRequest_wasm_content_type (d : MimeTable) (fs : Fs) (req : Request)
    (ps : List String) (bs : List Nat)
    (hm : req.method = "GET")
    (hres : resolve req.segs = some ps)
    (hfile : fs ps = FileKind.file bs)
    (hwasm : List.IsSuffix ".wasm".data (ps.getLastD "").data) :
    ("Content-Type", "application/wasm") ∈
      (handleRequest (startupTable d) fs req).headers := by
  have hg : guessType (startupTable d) (ps.getLastD "") = "application/wasm" :=
    guessType_wasm d _ hwasm
  rw [List.getLastD_eq_getLast?] at hg
  simp [handleRequest, hm, hres, hfile, hg, mkResponse, finalizeHeaders]

/-- Witness for claim C2: a concrete GET request for `app.wasm` served
from a filesystem holding that file. -/
theorem handleRequest_wasm_content_type_witness :
    ("Content-Type", "application/wasm") ∈
      (handleRequest (startupTable (fun _ => none)) (fun _ => FileKind.file [0])
        { method := "GET", segs := [Seg.name "app.wasm"] }).headers :=
  handleRequest_wasm_content_type (fun _ => none) (fun _ => FileKind.file [0])
    { method := "GET", segs := [Seg.name "app.wasm"] } ["app.wasm"] [0]
    rfl rfl rfl ⟨"app".data, rfl⟩

/-- Claim C3: any request whose path would resolve outside the root
directory gets a non-200 status, and the response body is never streamed
file contents. -/
theorem handleRequest_traversal_rejected (t : MimeTable) (fs : Fs) (req : Request)
    (h : resolve req.segs = none) :
    (handleRequest t fs req).status ≠ 200 ∧
    isFileBody (handleRequest t fs req).body = false := by
  unfold handleRequest
  split
  · rw [h]
    exact ⟨by simp [mkResponse], by simp [mkResponse, isFileBody]⟩
  · exact ⟨by simp [mkResponse], by simp [mkResponse, isFileBody]⟩

/-- Witness for claim C3: a concrete parent-directory request, against a
filesystem where every resolvable path is a regular file, still yields a
non-200 status and no file body. -/
theorem handleRequest_traversal_rejected_witness :
    resolve [Seg.up] = none ∧
    ((handleRequest (fun _ => none) (fun _ => FileKind.file [0])
        { method := "GET", segs := [Seg.up] }).status ≠ 200 ∧
      isFileBody (handleRequest (fun _ => none) (fun _ => FileKind.file [0])
        { method := "GET", segs := [Seg.up] }).body = false) :=
  ⟨rfl, handleRequest_traversal_rejected (fun _ => none) (fun _ => FileKind.file [0])
    { method := "GET", segs := [Seg.up] } rfl⟩

/-- Claim C4: a request whose resolved path does not exist on disk gets
status 404 with a minimal human-readable body, and the server loop keeps
producing one response per request afterwards: the per-request error
does not terminate the process. -/
theorem handleRequest_missing_404 (t : MimeTable) (fs : Fs) (req : Request)
    (ps : List String) (rest : List Request)
    (hm : req.method = "GET" ∨ req.method = "HEAD")
    (hres : resolve req.segs = some ps)
    (hmiss : fs ps = FileKind.missing) :
    (handleRequest t fs req).status = 404 ∧
    (handleRequest t fs req).body = Body.errorText "File not found" ∧
    (serveAll t fs (req :: rest)).length = rest.length + 1 := by
  rcases hm with hm | hm <;>
    simp [handleRequest, hm, hres, hmiss, mkResponse, finalizeHeaders, serveAll]

/-- Witness for claim C4: a concrete GET request for a missing path,
followed by one further request that is still answered. -/
theorem handleRequest_missing_404_witness :
    (handleRequest emptyTable emptyFs missingReq).status = 404 ∧
    (handleRequest emptyTable emptyFs missingReq).body = Body.errorText "File not found" ∧
    (serveAll emptyTable emptyFs (missingReq :: [nextReq])).length = [nextReq].length + 1 :=
  handleRequest_missing_404 emptyTable emptyFs missingReq
    ["does-not-exist.xyz"] [nextReq] (Or.inl rfl) rfl rfl

/-- Claim C5: a request whose method is not GET or HEAD gets a "method
not allowed" status, and no file is served (nor, the filesystem being
read-only in the model, modified). -/
theorem handleRequest_method_not_allowed (t : MimeTable) (fs : Fs) (req : Request)
    (h : ¬(req.method = "GET" ∨ req.method = "HEAD")) :
    (handleRequest t fs req).status = 405 ∧
    isFileBody (handleRequest t fs req).body = false := by
  unfold handleRequest
  rw [if_neg h]
  exact ⟨rfl, rfl⟩

/-- Witness for claim C5: a concrete POST request against a filesystem
where every path is a regular file is still refused with 405. -/
theorem handleRequest_method_not_allowed_witness :
    ¬(("POST" : String) = "GET" ∨ ("POST" : String) = "HEAD") ∧
    ((handleRequest (fun _ => none) (fun _ => FileKind.file [0])
        { method := "POST", segs := [Seg.name "index.html"] }).status = 405 ∧
      isFileBody (handleRequest (fun _ => none) (fun _ => FileKind.file [0])
        { method := "POST", segs := [Seg.name "index.html"] }).body = false) :=
  ⟨by decide, handleRequest_method_not_allowed (fun _ => none) (fun _ => FileKind.file [0])
    { method := "POST", segs := [Seg.name "index.html"] } (by decide)⟩

end Sudokuist

namespace Sudokuist

/-- Claim C6: when the keyboard interrupt arrives while the server is
listening (the only way a successful run terminates), the process prints
a shutdown message, closes the listening socket, and exits with status
0; the interrupt is not treated as an error, so no diagnostic traceback
appears in the trace. -/
theorem runMain_interrupt_graceful (env : Env)
    (hd : env.distExists = true) (hp : env.portFree = true) :
    (runMain env).exitCode = 0 ∧
    Ev.printLn "Server stopped" ∈ (runMain env).trace ∧
    Ev.closeSocket ∈ (runMain env).trace ∧
    (runMain env).trace.any isDiagnostic = false := by
  obtain ⟨d, p⟩ := env
  subst hd
  subst hp
  exact ⟨by decide, by decide, by decide, by decide⟩

/-- Witness for claim C6: the concrete successful-start environment. -/
theorem runMain_interrupt_graceful_witness :
    (runMain { distExists := true, portFree := true }).exitCode = 0 ∧
    Ev.printLn "Server stopped" ∈ (runMain { distExists := true, portFree := true }).trace ∧
    Ev.closeSocket ∈ (runMain { distExists := true, portFree := true }).trace ∧
    (runMain { distExists := true, portFree := true }).trace.any isDiagnostic = false :=
  runMain_interrupt_graceful { distExists := true, portFree := true } rfl rfl

/-- Claim C7: if at startup the port is already bound or the root
directory `dist` is missing, the process terminates with a diagnostic
and failure status 1 before serving any request: no retry, no silent
success. -/
theorem runMain_startup_failure (env : Env)
    (h : env.distExists = false ∨ env.portFree = false) :
    (runMain env).exitCode = 1 ∧
    (runMain env).trace.any isDiagnostic = true ∧
    Ev.serve ∉ (runMain env).trace := by
  obtain ⟨d, p⟩ := env
  cases d <;> cases p
  · exact ⟨by decide, by decide, by decide⟩
  · exact ⟨by decide, by decide, by decide⟩
  · exact ⟨by decide, by decide, by decide⟩
  · simp at h
  
/-- Witness for claim C7: the concrete environment where `dist` exists
but port 3000 is already bound. -/
theorem runMain_startup_failure_witness :
    (runMain { distExists := true, portFree := false }).exitCode = 1 ∧
    (runMain { distExists := true, portFree := false }).trace.any isDiagnostic = true ∧
    Ev.serve ∉ (runMain { distExists := true, portFree := false }).trace :=
  runMain_startup_failure { distExists := true, portFree := false } (Or.inr rfl)

/-- Claim C8: on every successful start the process first changes its
working directory to `dist` (the first event of the trace) and only
afterwards binds the TCP listener on port 3000 on all interfaces (the
second event). -/
theorem runMain_chdir_before_bind (env : Env)
    (hd : env.distExists = true) (hp : env.portFree = true) :
    (runMain env).trace.get? 0 = some (Ev.chdir "dist") ∧
    (runMain env).trace.get? 1 = some (Ev.bind "" 3000) := by
  obtain ⟨d, p⟩ := env
  subst hd
  subst hp
  exact ⟨by decide, by decide⟩

/-- Witness for claim C8: the concrete successful-start environment. -/
theorem runMain_chdir_before_bind_witness :
    (runMain { distExists := true, portFree := true }).trace.get? 0 =
      some (Ev.chdir "dist") ∧
    (runMain { distExists := true, portFree := true }).trace.get? 1 =
      some (Ev.bind "" 3000) :=
  runMain_chdir_before_bind { distExists := true, portFree := true } rfl rfl

/-- Claim C9: RegisterMimeType is idempotent: registering the same
mapping twice leaves the Content-Type Table in the same state as
registering it once; in particular the startup registration of
`.wasm` could be repeated without changing any lookup. -/
theorem addType_idempotent (t : MimeTable) (mimeType extension : String) :
    addType (addType t mimeType extension) mimeType extension =
      addType t mimeType extension ∧
    addType (startupTable t) "application/wasm" ".wasm" = startupTable t := by
  have key : ∀ (u : MimeTable) (m e : String),
      addType (addType u m e) m e = addType u m e := by
    intro u m e
    funext x
    unfold addType
    by_cases hx : x = e <;> simp [hx]
  exact ⟨key t mimeType extension, key t "application/wasm" ".wasm"⟩

/-- Claim C10: the `end_headers` override changes nothing except
appending the two fixed cross-origin headers: the status line, the
headers buffered before finalization (flushed in their original order),
and the body are exactly what the base finalization would produce, with
the two headers emitted right before the blank terminator. -/
theorem customEndHeaders_frame (st : HandlerState) :
    customEndHeaders st =
      { statusLine := st.statusLine
        headerBuffer := []
        wire := st.wire ++ (finalizeHeaders st.headerBuffer).map renderHeader ++ [""]
        body := st.body } ∧
    customEndHeaders st =
      baseEndHeaders { st with headerBuffer := finalizeHeaders st.headerBuffer } := by
  constructor
  · simp [customEndHeaders, baseEndHeaders, sendHeader, finalizeHeaders,
      coepHeader, coopHeader]
  · simp [customEndHeaders, baseEndHeaders, sendHeader, finalizeHeaders,
      coepHeader, coopHeader]

end Sudokuist
